import Mathlib

/-!
Shallow embedding of the wallspie-backend image-ingestion core:
`ImageProcessingService` (validate, resize, generateAllResolutions,
extractPrimaryColor), `StorageFactory` (backend selection and caching),
and the upload orchestration in `WallpaperController.create`.

Calls into the `sharp` codec, the storage providers and the database are
external effects; each is modelled as an explicit outcome value
(`Except`) supplied to the embedded function, so that failure injection
at any call site is expressible.  Everything below the effect boundary
follows the TypeScript source line by line.
-/

set_option autoImplicit false

namespace Wallspie

/-- JavaScript `a || b` on an optional number: `0` and `undefined` are falsy. -/
def jsOrNat (a : Option Nat) (b : Nat) : Nat :=
  match a with
  | some n => if n = 0 then b else n
  | none => b

/-- JavaScript `a || b` on an optional string: `""` and `undefined` are falsy. -/
def jsOrStr (a : Option String) (b : String) : String :=
  match a with
  | some s => if s = "" then b else s
  | none => b

/-- JavaScript truthiness of an optional number (`undefined` and `0` are falsy). -/
def jsTruthyNat : Option Nat → Bool
  | some n => n ≠ 0
  | none => false

/-- JavaScript `String.prototype.toLowerCase` on the ASCII provider names. -/
def jsToLower (s : String) : String :=
  String.mk (s.data.map Char.toLower)

/-- Round-half-up of `a / b` on naturals (`Math.round` of a nonnegative quotient). -/
def roundDiv (a b : Nat) : Nat :=
  (2 * a + b) / (2 * b)

/-- `sharp.Metadata`: the fields the service reads, each possibly `undefined`. -/
structure Metadata where
  width : Option Nat
  height : Option Nat
  format : Option String
  deriving Repr, DecidableEq

/-- The result shape of `ImageProcessingService.validate`. -/
structure ValidationResult where
  valid : Bool
  errors : List String
  deriving Repr, DecidableEq

/-- Options object accepted by `ImageProcessingService.validate`. -/
structure ValidateOptions where
  maxWidth : Option Nat := none
  maxHeight : Option Nat := none
  maxSize : Option Nat := none
  allowedFormats : Option (List String) := none
  deriving Repr

/-- Left-pad the base-100 fractional part to two digits. -/
def pad2 (n : Nat) : String :=
  if n < 10 then "0" ++ toString n else toString n

/-- `(maxSize / (1024 * 1024)).toFixed(2)`: the byte limit rendered in MB with
two decimals, rounding half up (division by `2^20` is exact in doubles). -/
def toFixed2MB (maxSize : Nat) : String :=
  let scaled := roundDiv (maxSize * 100) (1024 * 1024)
  toString (scaled / 100) ++ "." ++ pad2 (scaled % 100)

namespace ImageProcessingService

/-- The messages pushed by the `// Check format` block of `validate`: the
`allowedFormats` array is truthy whenever present (even empty), and the check
compares `metadata.format || ""` against it. -/
def fmtErrorsOf (m : Metadata) (options : ValidateOptions) : List String :=
  match options.allowedFormats with
  | some fmts =>
    if !(fmts.contains (m.format.getD "")) then
      ["Invalid format. Allowed: " ++ String.intercalate ", " fmts]
    else []
  | none => []

/-- The messages pushed by the width branch of the `// Check dimensions`
block (`options?.maxWidth && metadata.width && metadata.width > options.maxWidth`,
where `0` and `undefined` are falsy). -/
def widthErrorsOf (m : Metadata) (options : ValidateOptions) : List String :=
  match options.maxWidth, m.width with
  | some mw, some w =>
    if mw ≠ 0 ∧ w ≠ 0 ∧ w > mw then
      ["Width exceeds maximum of " ++ toString mw ++ "px"]
    else []
  | _, _ => []

/-- The messages pushed by the height branch of the `// Check dimensions`
block. -/
def heightErrorsOf (m : Metadata) (options : ValidateOptions) : List String :=
  match options.maxHeight, m.height with
  | some mh, some h =>
    if mh ≠ 0 ∧ h ≠ 0 ∧ h > mh then
      ["Height exceeds maximum of " ++ toString mh ++ "px"]
    else []
  | _, _ => []

/-- The messages pushed by the `// Check file size` block of `validate`. -/
def sizeErrorsOf (bufLen : Nat) (options : ValidateOptions) : List String :=
  match options.maxSize with
  | some ms =>
    if ms ≠ 0 ∧ bufLen > ms then
      ["File size exceeds maximum of " ++ toFixed2MB ms ++ "MB"]
    else []
  | none => []

/-- `ImageProcessingService.validate`.  The `sharp(...).metadata()` call is the
`meta` argument (`.error` when the buffer is not a decodable image, which the
source catches); `bufLen` is `imageBuffer.length`.  Messages are accumulated in
source order: format, width, height, byte size. -/
def validate (meta : Except String Metadata) (bufLen : Nat)
    (options : ValidateOptions) : ValidationResult :=
  match meta with
  | .error _ => { valid := false, errors := ["Invalid image file"] }
  | .ok m =>
    let errors := fmtErrorsOf m options ++ widthErrorsOf m options ++
      heightErrorsOf m options ++ sizeErrorsOf bufLen options
    { valid := errors.length == 0, errors := errors }

/-- The format constraint of `validate` fires (array present, metadata format
not contained in it; a JS array is truthy even when empty). -/
def fmtViolated (m : Metadata) (options : ValidateOptions) : Bool :=
  match options.allowedFormats with
  | some fmts => !(fmts.contains (m.format.getD ""))
  | none => false

/-- The width constraint of `validate` fires. -/
def widthViolated (m : Metadata) (options : ValidateOptions) : Bool :=
  match options.maxWidth, m.width with
  | some mw, some w => decide (mw ≠ 0 ∧ w ≠ 0 ∧ w > mw)
  | _, _ => false

/-- The height constraint of `validate` fires. -/
def heightViolated (m : Metadata) (options : ValidateOptions) : Bool :=
  match options.maxHeight, m.height with
  | some mh, some h => decide (mh ≠ 0 ∧ h ≠ 0 ∧ h > mh)
  | _, _ => false

/-- The byte-size constraint of `validate` fires. -/
def sizeViolated (bufLen : Nat) (options : ValidateOptions) : Bool :=
  match options.maxSize with
  | some ms => decide (ms ≠ 0 ∧ bufLen > ms)
  | none => false

end ImageProcessingService

/-- One lowercase hexadecimal digit, as produced by `Number.toString(16)`. -/
def hexDigitCh (n : Nat) : Char :=
  if n < 10 then Char.ofNat (48 + n) else Char.ofNat (87 + n)

/-- Is `c` a lowercase hexadecimal digit? -/
def isHexDigitCh (c : Char) : Bool :=
  (decide (48 ≤ c.toNat) && decide (c.toNat ≤ 57)) ||
    (decide (97 ≤ c.toNat) && decide (c.toNat ≤ 102))

/-- `n.toString(16).padStart(2, "0")` as a character list: `Nat.toDigits 16`
matches the lowercase hex rendering of JavaScript, and `padStart` prepends a
single zero when only one digit was produced. -/
def toHex2 (n : Nat) : List Char :=
  let ds := Nat.toDigits 16 n
  if ds.length < 2 then '0' :: ds else ds

/-- `Math.round` of a nonnegative JavaScript number: round half up. -/
def jsRound (q : ℚ) : Nat :=
  (⌊q + 1/2⌋).toNat

/-- Does `s` have the shape `#RRGGBB` (7 characters, lowercase hex)? -/
def isValidHexColor (s : String) : Bool :=
  match s.data with
  | '#' :: rest => rest.length == 6 && rest.all isHexDigitCh
  | _ => false

namespace ImageProcessingService

/-- `ImageProcessingService.extractPrimaryColor`.  The `sharp(...).stats()`
call is the `stats` argument: `.error` when decoding fails, otherwise the list
of per-channel means.  Reading `channels[1]`/`channels[2]` on an image with
fewer than three channels raises a `TypeError`, which the same `catch` turns
into the `#000000` fallback. -/
def extractPrimaryColor (stats : Except String (List ℚ)) : String :=
  match stats with
  | .error _ => "#000000"
  | .ok channels =>
    match channels with
    | c0 :: c1 :: c2 :: _ =>
      String.mk ('#' :: (toHex2 (jsRound c0) ++ toHex2 (jsRound c1) ++ toHex2 (jsRound c2)))
    | _ => "#000000"

end ImageProcessingService

/-- A decoded image as `sharp` sees it: pixel dimensions and container format. -/
structure Img where
  width : Nat
  height : Nat
  format : String
  deriving Repr, DecidableEq

/-- The `fit` values accepted by `sharp.resize`. -/
inductive Fit where
  | cover
  | contain
  | fill
  | inside
  | outside
  deriving Repr, DecidableEq

/-- Dimensions after the scaling step of `fit: cover`: the image is scaled by
`max(tw/sw, th/sh)` (so that it covers the target box) with round-half-up on
the non-binding dimension. -/
def coverScaledDims (sw sh tw th : Nat) : Nat × Nat :=
  if sw * th ≤ tw * sh then
    (tw, roundDiv (sh * tw) sw)
  else
    (roundDiv (sw * th) sh, th)

/-- Output dimensions of `sharp.resize(w, h, \x7b fit: "cover", position: "center" \x7d)`:
scale to cover, then center-crop to the target box. -/
def coverDims (sw sh tw th : Nat) : Nat × Nat :=
  let scaled := coverScaledDims sw sh tw th
  (min scaled.1 tw, min scaled.2 th)

/-- `ProcessedImage` as returned by the service (the buffer itself is kept
abstract; `size` is `buffer.length`, modelled as the pixel count of the
encoded output). -/
structure ProcessedImage where
  width : Nat
  height : Nat
  format : String
  size : Nat
  deriving Repr, DecidableEq

/-- Options object accepted by `ImageProcessingService.resize`.  The TypeScript
signature restricts `format` to a union type; at runtime any string can flow
in, so the model keeps it a string. -/
structure ResizeOptions where
  quality : Option Nat := none
  format : Option String := none
  fit : Option Fit := none
  deriving Repr

namespace ImageProcessingService

/-- The standard resolution configurations (`RESOLUTIONS`). -/
structure ResolutionConfig where
  name : String
  width : Nat
  height : Nat
  deriving Repr, DecidableEq

/-- `ImageProcessingService.RESOLUTIONS`, in declaration order. -/
def RESOLUTIONS : List ResolutionConfig :=
  [ { name := "1080p", width := 1920, height := 1080 },
    { name := "1440p", width := 2560, height := 1440 },
    { name := "4K", width := 3840, height := 2160 },
    { name := "5K", width := 5120, height := 2880 },
    { name := "Mobile HD", width := 1080, height := 1920 },
    { name := "Mobile 2K", width := 1440, height := 2560 },
    { name := "Tablet", width := 1536, height := 2048 },
    { name := "Thumbnail", width := 400, height := 300 },
    { name := "Medium", width := 800, height := 600 } ]

/-- `ImageProcessingService.resize`.  `src` is the decoded view of
`imageBuffer` (`none` when `sharp` cannot decode it, in which case `toBuffer`
rejects and the error propagates).  The encoder chain applies `jpeg`/`png`/
`webp` options when `format` is one of those strings and otherwise leaves the
pipeline untouched, so the re-decoded output keeps the source format; the
returned dimensions come from re-reading metadata with the `|| width` /
`|| height` fallbacks of the source. -/
def resize (src : Option Img) (width height : Nat) (options : ResizeOptions) :
    Except String ProcessedImage :=
  let _quality := jsOrNat options.quality 90
  let format := jsOrStr options.format "jpeg"
  let fit := options.fit.getD .cover
  match src with
  | none => .error "Input buffer contains unsupported image format"
  | some img =>
    let outDims :=
      match fit with
      | .cover => coverDims img.width img.height width height
      | .fill => (width, height)
      | .contain => (width, height)
      | .inside => coverScaledDims width height img.width img.height
      | .outside => coverScaledDims img.width img.height width height
    let encoded : Option String :=
      if format = "jpeg" then some "jpeg"
      else if format = "png" then some "png"
      else if format = "webp" then some "webp"
      else none
    let outImg : Img :=
      { width := outDims.1, height := outDims.2, format := encoded.getD img.format }
    .ok { width := jsOrNat (some outImg.width) width,
          height := jsOrNat (some outImg.height) height,
          format := jsOrStr (some outImg.format) format,
          size := outImg.width * outImg.height }

/-- `ImageProcessingService.generateThumbnail` with its default 400×300 box. -/
def generateThumbnail (src : Option Img) : Except String ProcessedImage :=
  resize src 400 300 { quality := some 80, format := some "jpeg", fit := some .cover }

/-- `ImageProcessingService.generateMedium` with its default 800×600 box. -/
def generateMedium (src : Option Img) : Except String ProcessedImage :=
  resize src 800 600 { quality := some 85, format := some "jpeg", fit := some .cover }

/-- `ImageProcessingService.generateAllResolutions`.  `resizeOutcome` is the
outcome of `this.resize(imageBuffer, res.width, res.height)` for each catalog
entry (the codec call is an external effect and can fail per entry); a failing
entry is logged and skipped by the `try`/`catch` inside the loop.  When
`includeOriginal` is set the initial `sharp` metadata read is not guarded, so
its failure propagates.  The `Map` keyed by unique names is its association
list in insertion order. -/
def generateAllResolutions
    (resizeOutcome : ResolutionConfig → Except String ProcessedImage)
    (origMeta : Except String Metadata) (origBufLen : Nat)
    (includeOriginal : Bool := true) : Except String (List (String × ProcessedImage)) :=
  let init : Except String (List (String × ProcessedImage)) :=
    if includeOriginal then
      match origMeta with
      | .error e => .error e
      | .ok m => .ok [("original",
          { width := m.width.getD 0, height := m.height.getD 0,
            format := m.format.getD "jpeg", size := origBufLen })]
    else .ok []
  match init with
  | .error e => .error e
  | .ok acc0 =>
    .ok (RESOLUTIONS.foldl (fun acc r =>
      match resizeOutcome r with
      | .ok p => acc ++ [(r.name, p)]
      | .error _ => acc) acc0)

end ImageProcessingService

/-- The storage providers the factory can construct. -/
inductive Provider where
  | cloudinary
  | s3
  deriving Repr, DecidableEq

/-- A constructed `IStorageService` object: its provider class plus an object
identity (each `new` takes a fresh identity). -/
structure Service where
  provider : Provider
  uid : Nat
  deriving Repr, DecidableEq

/-- The mutable statics of `StorageFactory`: the cached `instance`, a supply of
fresh object identities, and a count of `storage_providers` queries issued
(each attempt of the `SELECT`, successful or thrown, counts). -/
structure FactoryState where
  inst : Option Service
  nextUid : Nat
  queryCount : Nat
  deriving Repr, DecidableEq

/-- The outcome of the `storage_providers` `SELECT`: the rows (provider names,
highest priority first, already limited to 1 so only the head matters), or a
thrown database error. -/
abbrev ProviderConfig := Except String (List String)

namespace StorageFactory

/-- `StorageFactory.createService`: switch on the lowercased provider name,
falling back to Cloudinary for unknown names.  Returns the new object and the
advanced identity supply. -/
def createService (provider : String) (nextUid : Nat) : Service × Nat :=
  if jsToLower provider = "cloudinary" then ({ provider := .cloudinary, uid := nextUid }, nextUid + 1)
  else if jsToLower provider = "s3" then ({ provider := .s3, uid := nextUid }, nextUid + 1)
  else ({ provider := .cloudinary, uid := nextUid }, nextUid + 1)

/-- `StorageFactory.getActiveService`: return the cached instance if present;
otherwise query configuration (`cfg`), construct the service named by the
first row (or `"cloudinary"` when no row matches), cache and return it.  When
the query throws, log and cache a fresh `CloudinaryService` fallback. -/
def getActiveService (cfg : ProviderConfig) (st : FactoryState) :
    Service × FactoryState :=
  match st.inst with
  | some s => (s, st)
  | none =>
    match cfg with
    | .ok rows =>
      let providerName := match rows with
        | r :: _ => r
        | [] => "cloudinary"
      let created := createService providerName st.nextUid
      (created.1, { inst := some created.1, nextUid := created.2,
                    queryCount := st.queryCount + 1 })
    | .error _ =>
      let fallback : Service := { provider := .cloudinary, uid := st.nextUid }
      (fallback, { inst := some fallback, nextUid := st.nextUid + 1,
                   queryCount := st.queryCount + 1 })

/-- `StorageFactory.reset`: clear the cached instance. -/
def reset (st : FactoryState) : FactoryState :=
  { st with inst := none }

/-- `StorageFactory.getServiceById`: bypass the cache, throw when no row
matches the id. -/
def getServiceById (cfg : ProviderConfig) (st : FactoryState) :
    Except String (Service × Nat) :=
  match cfg with
  | .error e => .error e
  | .ok [] => .error "Storage provider not found"
  | .ok (r :: _) => .ok (createService r st.nextUid)

end StorageFactory

/-- `UploadResult` from a storage backend (the durable URL is all the sweep
rows consume). -/
structure UploadResult where
  url : String
  deriving Repr, DecidableEq

/-- One element of the `resolutionData` array handed to
`WallpaperResolutionModel.bulkCreate`. -/
structure ResolutionRow where
  wallpaperId : Nat
  width : Nat
  height : Nat
  name : String
  fileSize : Nat
  url : String
  isOriginal : Bool
  deriving Repr, DecidableEq

/-- The HTTP response classes `WallpaperController.create` can produce. -/
inductive Resp where
  | badRequest (errors : List String)
  | serverError (msg : String)
  | created
  deriving Repr, DecidableEq

/-- Observable side effects of one `create` call: catalog resize attempts,
catalog upload attempts, whether `WallpaperModel.create` committed a wallpaper
row, and the rows durably written by `WallpaperResolutionModel.bulkCreate`
(`none` when `bulkCreate` never succeeded). -/
structure Trace where
  sweepResizeCalls : Nat := 0
  sweepUploadCalls : Nat := 0
  wallpaperCreated : Bool := false
  bulkRows : Option (List ResolutionRow) := none
  deriving Repr, DecidableEq

/-- Outcomes of every external call `WallpaperController.create` makes, in
source order: the request payload, the codec calls, the three core uploads,
the per-entry catalog resize/upload outcomes, and the database writes. -/
structure CreateOracles where
  file : Option Nat
  categoryIds : Except String (List Nat)
  maxFileSize : Nat := 10485760
  meta : Except String Metadata
  stats : Except String (List ℚ)
  genThumb : Except String ProcessedImage
  genMedium : Except String ProcessedImage
  upOriginal : Except String UploadResult
  upThumb : Except String UploadResult
  upMedium : Except String UploadResult
  resizeOutcome : ImageProcessingService.ResolutionConfig → Except String ProcessedImage
  upRes : String → Except String UploadResult
  dbCreate : Except String Nat
  addCategories : Except String Unit := .ok ()
  bulkCreate : Except String Unit := .ok ()
  findById : Except String Unit := .ok ()

namespace WallpaperController

open ImageProcessingService

/-- The fixed validation options `create` passes to `validate`. -/
def uploadValidateOptions (maxFileSize : Nat) : ValidateOptions :=
  { maxWidth := some 10000, maxHeight := some 10000,
    maxSize := some maxFileSize,
    allowedFormats := some ["jpeg", "jpg", "png", "webp"] }

/-- `Promise.all` over the three core uploads: rejects with the error of the
earliest-listed failing upload, resolves with all three results otherwise. -/
def promiseAll3 (a b c : Except String UploadResult) :
    Except String (UploadResult × UploadResult × UploadResult) :=
  match a, b, c with
  | .error e, _, _ => .error e
  | .ok _, .error e, _ => .error e
  | .ok _, .ok _, .error e => .error e
  | .ok ra, .ok rb, .ok rc => .ok (ra, rb, rc)

/-- The `for (const [name, processed] of resolutions)` upload loop: each
iteration awaits one unguarded `storageService.upload`, so the first failure
aborts the loop (and the surrounding `create`); on success one row is pushed.
Also counts upload attempts. -/
def sweepUploadLoop (upRes : String → Except String UploadResult)
    (wallpaperId : Nat) :
    List (String × ProcessedImage) → Except String (List ResolutionRow) × Nat
  | [] => (.ok [], 0)
  | (name, p) :: rest =>
    match upRes name with
    | .error e => (.error e, 1)
    | .ok u =>
      let row : ResolutionRow :=
        { wallpaperId := wallpaperId, width := p.width, height := p.height,
          name := name, fileSize := p.size, url := u.url,
          isOriginal := name == "original" }
      let next := sweepUploadLoop upRes wallpaperId rest
      (next.1.map (fun rows => row :: rows), next.2 + 1)

/-- `WallpaperController.create`, from the `req.file` guard to the final
response.  Every thrown error lands in the outer `catch`, which answers 500
(`Resp.serverError`); the trace records which side effects had already
happened at that point. -/
def create (o : CreateOracles) : Resp × Trace :=
  match o.file with
  | none => (.badRequest ["Image file is required"], {})
  | some fileLen =>
    match o.categoryIds with
    | .error _ => (.badRequest ["Invalid category_ids format"], {})
    | .ok categoryIds =>
      let validation := validate o.meta fileLen (uploadValidateOptions o.maxFileSize)
      if !validation.valid then (.badRequest validation.errors, {})
      else
        match o.meta with
        | .error e => (.serverError e, {})
        | .ok meta =>
          let _primaryColor := extractPrimaryColor o.stats
          match o.genThumb with
          | .error e => (.serverError e, {})
          | .ok _thumb =>
            match o.genMedium with
            | .error e => (.serverError e, {})
            | .ok _medium =>
              match promiseAll3 o.upOriginal o.upThumb o.upMedium with
              | .error e => (.serverError e, {})
              | .ok uploads =>
                match o.dbCreate with
                | .error e => (.serverError e, {})
                | .ok wallpaperId =>
                  let t0 : Trace := { wallpaperCreated := true }
                  match (if categoryIds.length > 0 then o.addCategories else .ok ()) with
                  | .error e => (.serverError e, t0)
                  | .ok () =>
                    match generateAllResolutions o.resizeOutcome o.meta fileLen false with
                    | .error e => (.serverError e, t0)
                    | .ok resolutions =>
                      let t1 : Trace := { t0 with sweepResizeCalls := RESOLUTIONS.length }
                      let sweep := sweepUploadLoop o.upRes wallpaperId resolutions
                      let t2 : Trace := { t1 with sweepUploadCalls := sweep.2 }
                      match sweep.1 with
                      | .error e => (.serverError e, t2)
                      | .ok sweepRows =>
                        let originalRow : ResolutionRow :=
                          { wallpaperId := wallpaperId,
                            width := meta.width.getD 0, height := meta.height.getD 0,
                            name := "Original", fileSize := fileLen,
                            url := uploads.1.url, isOriginal := true }
                        let resolutionData := sweepRows ++ [originalRow]
                        match o.bulkCreate with
                        | .error e => (.serverError e, t2)
                        | .ok () =>
                          let t3 : Trace := { t2 with bulkRows := some resolutionData }
                          match o.findById with
                          | .error e => (.serverError e, t3)
                          | .ok () => (.created, t3)

end WallpaperController

/-- Unwrap a codec outcome known to be `ok` (dummy image otherwise). -/
def getOk (e : Except String ProcessedImage) : ProcessedImage :=
  match e with
  | .ok p => p
  | .error _ => { width := 0, height := 0, format := "", size := 0 }

/-- A fully healthy ingestion environment: decodable 4000×3000 JPEG upload,
every codec call, upload and database write succeeds. -/
def allOkOracles : CreateOracles :=
  { file := some 2000000,
    categoryIds := .ok [1],
    meta := .ok { width := some 4000, height := some 3000, format := some "jpeg" },
    stats := .ok [(10 : ℚ), 20, 30],
    genThumb := .ok { width := 400, height := 300, format := "jpeg", size := 9000 },
    genMedium := .ok { width := 800, height := 600, format := "jpeg", size := 30000 },
    upOriginal := .ok { url := "https://cdn.example/original" },
    upThumb := .ok { url := "https://cdn.example/thumb" },
    upMedium := .ok { url := "https://cdn.example/medium" },
    resizeOutcome := fun r =>
      .ok { width := r.width, height := r.height, format := "jpeg", size := 50000 },
    upRes := fun n => .ok { url := "https://cdn.example/res/" ++ n },
    dbCreate := .ok 42 }

/-- The healthy environment with a single injected transient failure: the
storage upload of the `1080p` catalog variant rejects. -/
def sweepUploadFailOracles : CreateOracles :=
  { allOkOracles with
    upRes := fun n =>
      if n == "1080p" then .error "network"
      else .ok { url := "https://cdn.example/res/" ++ n } }

/-- The resolution row the sweep loop pushes for entry `e` when its upload
returns `u e.1`. -/
def sweepRowOf (wid : Nat) (u : String → UploadResult)
    (e : String × ProcessedImage) : ResolutionRow :=
  { wallpaperId := wid, width := e.2.width, height := e.2.height, name := e.1,
    fileSize := e.2.size, url := (u e.1).url, isOriginal := e.1 == "original" }

/-! ## Helper lemmas -/

theorem jsOrNat_some_self (n : Nat) : jsOrNat (some n) n = n := by
  simp only [jsOrNat]
  split <;> omega

theorem getActiveService_caches (cfg : ProviderConfig) (st : FactoryState) :
    ((StorageFactory.getActiveService cfg st).2).inst =
      some (StorageFactory.getActiveService cfg st).1 := by
  rcases st with ⟨inst, uid, qc⟩
  rcases inst with _ | s <;> rcases cfg with e | rows <;>
    simp [StorageFactory.getActiveService]

theorem getActiveService_hit (cfg : ProviderConfig) (st : FactoryState) (s : Service)
    (h : st.inst = some s) : StorageFactory.getActiveService cfg st = (s, st) := by
  rcases st with ⟨inst, uid, qc⟩
  cases h
  simp [StorageFactory.getActiveService]

theorem getActiveService_queryCount_le (cfg : ProviderConfig) (st : FactoryState) :
    (StorageFactory.getActiveService cfg st).2.queryCount ≤ st.queryCount + 1 := by
  rcases st with ⟨inst, uid, qc⟩
  rcases inst with _ | s <;> rcases cfg with e | rows <;>
    simp [StorageFactory.getActiveService]

theorem getActiveService_miss_queryCount (cfg : ProviderConfig) (st : FactoryState)
    (h : st.inst = none) :
    (StorageFactory.getActiveService cfg st).2.queryCount = st.queryCount + 1 := by
  rcases st with ⟨inst, uid, qc⟩
  cases h
  rcases cfg with e | rows <;> simp [StorageFactory.getActiveService]

/-! ## Claim theorems -/

/-- C10: for every undecodable input buffer, `validate` returns `valid = false`
with exactly the single message `"Invalid image file"`, for every byte length
and every options object (in particular even when the byte length exceeds
`maxSize`): the format, dimension and size checks sit after the metadata read
inside the `try`, so they are skipped entirely once it throws. -/
theorem validate_undecodable_single_message (e : String) (bufLen : Nat)
    (opts : ValidateOptions) :
    ImageProcessingService.validate (.error e) bufLen opts =
      { valid := false, errors := ["Invalid image file"] } := rfl

/-- C9: two consecutive `StorageFactory.getActiveService` calls with no
intervening `reset` return the identity-equal cached service (the second call
changes nothing and issues no query, and at most one configuration read
happens in total); after `reset`, the next call issues a fresh configuration
query. -/
theorem getActiveService_cached_between_calls (cfg cfg2 cfg3 : ProviderConfig)
    (st : FactoryState) :
    (StorageFactory.getActiveService cfg2 (StorageFactory.getActiveService cfg st).2).1 =
        (StorageFactory.getActiveService cfg st).1 ∧
    (StorageFactory.getActiveService cfg2 (StorageFactory.getActiveService cfg st).2).2 =
        (StorageFactory.getActiveService cfg st).2 ∧
    (StorageFactory.getActiveService cfg st).2.queryCount ≤ st.queryCount + 1 ∧
    (StorageFactory.getActiveService cfg3
        (StorageFactory.reset (StorageFactory.getActiveService cfg st).2)).2.queryCount =
      (StorageFactory.getActiveService cfg st).2.queryCount + 1 := by
  have hcache := getActiveService_caches cfg st
  have hhit := getActiveService_hit cfg2 (StorageFactory.getActiveService cfg st).2
    (StorageFactory.getActiveService cfg st).1 hcache
  refine ⟨by rw [hhit], by rw [hhit], getActiveService_queryCount_le cfg st, ?_⟩
  have hreset : (StorageFactory.reset (StorageFactory.getActiveService cfg st).2).inst = none := rfl
  rw [getActiveService_miss_queryCount cfg3 _ hreset]
  rfl

/-- C3: when the configuration read throws, `getActiveService` returns the
hardcoded Cloudinary fallback; the fallback is not the permanent process-wide
selection: after an explicit `reset`, the next call issues a fresh
configuration query (the query counter advances again) and resolves the
backend from the configuration rows (here `s3`) instead of reusing the
fallback. -/
theorem getActiveService_fallback_retries_after_reset (st : FactoryState) (e : String)
    (h : st.inst = none) :
    (StorageFactory.getActiveService (.error e) st).1.provider = Provider.cloudinary ∧
    (StorageFactory.getActiveService (.ok ["s3"])
        (StorageFactory.reset (StorageFactory.getActiveService (.error e) st).2)).1.provider =
      Provider.s3 ∧
    (StorageFactory.getActiveService (.ok ["s3"])
        (StorageFactory.reset (StorageFactory.getActiveService (.error e) st).2)).2.queryCount =
      st.queryCount + 2 := by
  rcases st with ⟨inst, uid, qc⟩
  cases h
  refine ⟨rfl, ?_, ?_⟩ <;>
    simp [StorageFactory.getActiveService, StorageFactory.reset, StorageFactory.createService,
      show jsToLower "s3" = "s3" from by decide]

/-- Witness for C3 at the empty-cache state and a concrete thrown error. -/
theorem getActiveService_fallback_retries_after_reset_witness :
    (({ inst := none, nextUid := 0, queryCount := 0 } : FactoryState).inst = none) ∧
    ((StorageFactory.getActiveService (.error "db down")
        { inst := none, nextUid := 0, queryCount := 0 }).1.provider = Provider.cloudinary ∧
      (StorageFactory.getActiveService (.ok ["s3"])
          (StorageFactory.reset (StorageFactory.getActiveService (.error "db down")
            { inst := none, nextUid := 0, queryCount := 0 }).2)).1.provider = Provider.s3 ∧
      (StorageFactory.getActiveService (.ok ["s3"])
          (StorageFactory.reset (StorageFactory.getActiveService (.error "db down")
            { inst := none, nextUid := 0, queryCount := 0 }).2)).2.queryCount =
        ({ inst := none, nextUid := 0, queryCount := 0 } : FactoryState).queryCount + 2) :=
  ⟨rfl, getActiveService_fallback_retries_after_reset
    { inst := none, nextUid := 0, queryCount := 0 } "db down" rfl⟩

/-- Counterexample to C4: requesting the unsupported output format `"gif"` on
a decodable 4000×3000 PNG succeeds (no `UnsupportedFormatError` — no such
error exists anywhere in the code); the encoder chain is skipped and the
output keeps the source format `png`. -/
theorem resize_gif_succeeds_counterexample :
    ImageProcessingService.resize (some { width := 4000, height := 3000, format := "png" })
      100 100 { format := some "gif" } =
      .ok { width := 100, height := 100, format := "png", size := 10000 } := by
  rfl

/-- C4 (amended): for every requested output format not in
`{jpeg, png, webp}` (and non-empty, since `""` is falsy and falls back to the
`jpeg` default), `resize` on a decodable image does not fail at all: the
format-specific encoder chain is skipped, so the output keeps the source
format (the requested format only surfaces if the re-decoded metadata has
none).  The claimed `UnsupportedFormatError` does not exist in the code; the
restriction to the three formats lives only in the TypeScript type signature. -/
theorem resize_unknown_format_ignored (img : Img) (w h : Nat) (q : Option Nat)
    (fit : Option Fit) (fmt : String)
    (hfmt : fmt ∉ (["jpeg", "png", "webp"] : List String)) (hne : fmt ≠ "") :
    ∃ p, ImageProcessingService.resize (some img) w h
        { quality := q, format := some fmt, fit := fit } = .ok p ∧
      p.format = (if img.format = "" then fmt else img.format) := by
  simp only [List.mem_cons, List.not_mem_nil, or_false, not_or] at hfmt
  obtain ⟨h1, h2, h3⟩ := hfmt
  simp only [ImageProcessingService.resize, jsOrStr, hne, if_false, if_neg h1, if_neg h2,
    if_neg h3]
  exact ⟨_, rfl, by simp [jsOrStr]⟩

/-- Witness for C4 (amended): `"gif"` is not one of the three supported
formats, is non-empty, and resizing a PNG to it succeeds with the source
format preserved. -/
theorem resize_unknown_format_ignored_witness :
    (("gif" : String) ∉ (["jpeg", "png", "webp"] : List String)) ∧ ("gif" ≠ "") ∧
    (∃ p, ImageProcessingService.resize
        (some { width := 4000, height := 3000, format := "png" }) 100 100
        { quality := none, format := some "gif", fit := none } = .ok p ∧
      p.format = (if ("png" : String) = "" then "gif" else "png")) :=
  ⟨by decide, by decide,
    resize_unknown_format_ignored { width := 4000, height := 3000, format := "png" }
      100 100 none none "gif" (by decide) (by decide)⟩

theorem coverDims_eq (sw sh tw th : Nat) (hsw : 0 < sw) (hsh : 0 < sh) :
    coverDims sw sh tw th = (tw, th) := by
  unfold coverDims coverScaledDims roundDiv
  split
  · rename_i hle
    have h1 : th ≤ (2 * (sh * tw) + sw) / (2 * sw) := by
      rw [Nat.le_div_iff_mul_le (by omega)]
      nlinarith
    simp only
    rw [Nat.min_self, Nat.min_eq_right h1]
  · rename_i hgt
    have hlt : tw * sh < sw * th := by omega
    have h1 : tw ≤ (2 * (sw * th) + sh) / (2 * sh) := by
      rw [Nat.le_div_iff_mul_le (by omega)]
      nlinarith
    simp only
    rw [Nat.min_self, Nat.min_eq_right h1]

/-- C8: for every decodable input image of any aspect ratio (any positive
source dimensions) and every `ResolutionSpec` in the catalog, `resize` with
the default options (`fit: cover`) produces a variant whose width and height
exactly equal the spec target dimensions. -/
theorem resize_cover_catalog_exact_dims (img : Img)
    (spec : ImageProcessingService.ResolutionConfig)
    (_hmem : spec ∈ ImageProcessingService.RESOLUTIONS)
    (hw : 0 < img.width) (hh : 0 < img.height) :
    ∃ p, ImageProcessingService.resize (some img) spec.width spec.height {} = .ok p ∧
      p.width = spec.width ∧ p.height = spec.height := by
  simp only [ImageProcessingService.resize, coverDims_eq img.width img.height spec.width
    spec.height hw hh]
  exact ⟨_, rfl, by simp [jsOrNat_some_self, jsOrStr]⟩

/-- Witness for C8: a panoramic 5000×800 JPEG resized to the first catalog
spec (1080p) comes out exactly 1920×1080. -/
theorem resize_cover_catalog_exact_dims_witness :
    (({ name := "1080p", width := 1920, height := 1080 } :
        ImageProcessingService.ResolutionConfig) ∈ ImageProcessingService.RESOLUTIONS) ∧
    (0 < (5000 : Nat)) ∧ (0 < (800 : Nat)) ∧
    (∃ p, ImageProcessingService.resize (some { width := 5000, height := 800, format := "jpeg" })
        1920 1080 {} = .ok p ∧ p.width = 1920 ∧ p.height = 1080) :=
  ⟨by decide, by decide, by decide,
    resize_cover_catalog_exact_dims { width := 5000, height := 800, format := "jpeg" }
      { name := "1080p", width := 1920, height := 1080 } (by decide) (by decide) (by decide)⟩

theorem jsRound_lt_256 (q : ℚ) (_h0 : 0 ≤ q) (h255 : q ≤ 255) : jsRound q < 256 := by
  unfold jsRound
  have hfl : (⌊q + 1 / 2⌋ : ℤ) < 256 := by
    apply Int.floor_lt.mpr
    push_cast
    linarith
  omega

set_option maxRecDepth 8192 in
theorem toHex2_valid :
    ∀ n, n < 256 → (toHex2 n).length = 2 ∧ (toHex2 n).all isHexDigitCh = true := by
  decide

/-- C5: `extractPrimaryColor` never raises: it is total, returns exactly
`"#000000"` on every decode failure, and otherwise (given per-channel means in
the byte range, as `sharp` produces) always returns a syntactically valid
7-character `#RRGGBB` hex string built from the rounded per-channel means —
never null or absent.  (An image with fewer than three stat channels hits the
same `catch` via the `TypeError` on `channels[1]` and also yields
`"#000000"`.) -/
theorem extractPrimaryColor_always_valid_hex (stats : Except String (List ℚ))
    (hbound : ∀ q ∈ (match stats with | .ok l => l | .error _ => ([] : List ℚ)),
      (0 : ℚ) ≤ q ∧ q ≤ 255) :
    isValidHexColor (ImageProcessingService.extractPrimaryColor stats) = true ∧
    (∀ e, stats = .error e →
      ImageProcessingService.extractPrimaryColor stats = "#000000") := by
  constructor
  · match stats with
    | .error e => rfl
    | .ok [] => rfl
    | .ok [c0] => rfl
    | .ok [c0, c1] => rfl
    | .ok (c0 :: c1 :: c2 :: rest) =>
      have hb0 := hbound c0 (by simp)
      have hb1 := hbound c1 (by simp)
      have hb2 := hbound c2 (by simp)
      have h0 := toHex2_valid (jsRound c0) (jsRound_lt_256 c0 hb0.1 hb0.2)
      have h1 := toHex2_valid (jsRound c1) (jsRound_lt_256 c1 hb1.1 hb1.2)
      have h2 := toHex2_valid (jsRound c2) (jsRound_lt_256 c2 hb2.1 hb2.2)
      simp only [ImageProcessingService.extractPrimaryColor, isValidHexColor]
      simp [List.all_append, h0.1, h1.1, h2.1, h0.2, h1.2, h2.2]
  · intro e he
    cases he
    rfl

/-- Witness for C5 at concrete stats (channel means 12, 200 and 255). -/
theorem extractPrimaryColor_always_valid_hex_witness :
    (∀ q ∈ (match (Except.ok [(12 : ℚ), 200, 255] : Except String (List ℚ)) with
        | .ok l => l | .error _ => ([] : List ℚ)), (0 : ℚ) ≤ q ∧ q ≤ 255) ∧
    (isValidHexColor (ImageProcessingService.extractPrimaryColor
        (.ok [(12 : ℚ), 200, 255])) = true ∧
      (∀ e, (Except.ok [(12 : ℚ), 200, 255] : Except String (List ℚ)) = .error e →
        ImageProcessingService.extractPrimaryColor (.ok [(12 : ℚ), 200, 255]) =
          "#000000")) := by
  have hb : ∀ q ∈ (match (Except.ok [(12 : ℚ), 200, 255] : Except String (List ℚ)) with
      | .ok l => l | .error _ => ([] : List ℚ)), (0 : ℚ) ≤ q ∧ q ≤ 255 := by
    intro q hq
    simp only [List.mem_cons, List.not_mem_nil, or_false] at hq
    rcases hq with h | h | h <;> subst h <;> norm_num
  exact ⟨hb, extractPrimaryColor_always_valid_hex (.ok [(12 : ℚ), 200, 255]) hb⟩

/-- C6: `validate` never throws (it is a total function into a result record),
and on a decodable image it reports exactly one human-readable message per
violated constraint — the error count is the number of violated constraints
among format, max width, max height and max byte size, and `valid` holds
exactly when that list is empty (so e.g. an oversized image in a disallowed
format yields precisely two messages). -/
theorem validate_one_message_per_violation (m : Metadata) (bufLen : Nat)
    (opts : ValidateOptions) :
    (ImageProcessingService.validate (.ok m) bufLen opts).errors.length =
      ((if ImageProcessingService.fmtViolated m opts then 1 else 0) +
        (if ImageProcessingService.widthViolated m opts then 1 else 0) +
        (if ImageProcessingService.heightViolated m opts then 1 else 0) +
        (if ImageProcessingService.sizeViolated bufLen opts then 1 else 0)) ∧
    ((ImageProcessingService.validate (.ok m) bufLen opts).valid = true ↔
      (ImageProcessingService.validate (.ok m) bufLen opts).errors = []) := by
  have hfmt : (ImageProcessingService.fmtErrorsOf m opts).length =
      if ImageProcessingService.fmtViolated m opts then 1 else 0 := by
    rw [ImageProcessingService.fmtErrorsOf, ImageProcessingService.fmtViolated]
    rcases opts.allowedFormats with _ | af <;> simp <;> split_ifs <;> simp_all
  have hw : (ImageProcessingService.widthErrorsOf m opts).length =
      if ImageProcessingService.widthViolated m opts then 1 else 0 := by
    rw [ImageProcessingService.widthErrorsOf, ImageProcessingService.widthViolated]
    rcases opts.maxWidth with _ | mw <;> rcases hm : m.width with _ | w <;> simp <;>
      split_ifs <;> simp_all
  have hh : (ImageProcessingService.heightErrorsOf m opts).length =
      if ImageProcessingService.heightViolated m opts then 1 else 0 := by
    rw [ImageProcessingService.heightErrorsOf, ImageProcessingService.heightViolated]
    rcases opts.maxHeight with _ | mh <;> rcases hm : m.height with _ | h <;> simp <;>
      split_ifs <;> simp_all
  have hs : (ImageProcessingService.sizeErrorsOf bufLen opts).length =
      if ImageProcessingService.sizeViolated bufLen opts then 1 else 0 := by
    rw [ImageProcessingService.sizeErrorsOf, ImageProcessingService.sizeViolated]
    rcases opts.maxSize with _ | ms <;> simp <;> split_ifs <;> simp_all
  constructor
  · simp only [ImageProcessingService.validate, List.length_append, hfmt, hw, hh, hs]
  · simp only [ImageProcessingService.validate, beq_iff_eq, List.length_eq_zero]

theorem generateAllResolutions_collect
    (ro : ImageProcessingService.ResolutionConfig → Except String ProcessedImage)
    (meta : Except String Metadata) (len : Nat) :
    ImageProcessingService.generateAllResolutions ro meta len false =
      .ok ((ImageProcessingService.RESOLUTIONS.filter (fun r => (ro r).isOk)).map
        (fun r => (r.name, getOk (ro r)))) := by
  have hfold : ∀ (rs : List ImageProcessingService.ResolutionConfig)
      (acc : List (String × ProcessedImage)),
      rs.foldl (fun acc r => match ro r with
        | .ok p => acc ++ [(r.name, p)]
        | .error _ => acc) acc =
        acc ++ (rs.filter (fun r => (ro r).isOk)).map (fun r => (r.name, getOk (ro r))) := by
    intro rs
    induction rs with
    | nil => intro acc; simp
    | cons r rest ih =>
      intro acc
      cases hro : ro r with
      | ok p =>
        simp [List.filter_cons, hro, Except.isOk, Except.toBool, getOk, ih]
      | error e =>
        simp [List.filter_cons, hro, Except.isOk, Except.toBool, getOk, ih]
  simp only [ImageProcessingService.generateAllResolutions, Bool.false_eq_true, if_false,
    hfold, List.nil_append]

theorem sweepUploadLoop_all_ok (u : String → UploadResult) (wid : Nat)
    (entries : List (String × ProcessedImage)) :
    WallpaperController.sweepUploadLoop (fun nm => .ok (u nm)) wid entries =
      (.ok (entries.map (sweepRowOf wid u)), entries.length) := by
  induction entries with
  | nil => rfl
  | cons e rest ih =>
    obtain ⟨name, p⟩ := e
    simp [WallpaperController.sweepUploadLoop, ih, sweepRowOf, Except.map]

/-- C2: whenever any of the three core uploads (original, thumbnail or medium)
fails, the whole ingestion aborts with an upload error propagated to the
caller (a 500 response carrying one of the failing uploads’ errors), and the
side-effect trace is empty: zero catalog-sweep resize calls, zero catalog-sweep
upload calls, no wallpaper row created, no resolution rows written.  (Oracle
fields, in order: file, categoryIds, maxFileSize, meta, stats, genThumb,
genMedium, upOriginal, upThumb, upMedium, resizeOutcome, upRes, dbCreate,
addCategories, bulkCreate, findById.) -/
theorem create_core_upload_failure_aborts
    (len maxFS : Nat) (cids : List Nat) (m : Metadata) (stats : Except String (List ℚ))
    (thumb med : ProcessedImage) (uo ut um : Except String UploadResult)
    (ro : ImageProcessingService.ResolutionConfig → Except String ProcessedImage)
    (ur : String → Except String UploadResult) (dc : Except String Nat)
    (ac bc fb : Except String Unit)
    (hvalid : (ImageProcessingService.validate (.ok m) len
      (WallpaperController.uploadValidateOptions maxFS)).valid = true)
    (hfail : uo.isOk = false ∨ ut.isOk = false ∨ um.isOk = false) :
    (∃ e, (WallpaperController.create ⟨some len, .ok cids, maxFS, .ok m, stats,
        .ok thumb, .ok med, uo, ut, um, ro, ur, dc, ac, bc, fb⟩).1 = .serverError e ∧
      (uo = .error e ∨ ut = .error e ∨ um = .error e)) ∧
    (WallpaperController.create ⟨some len, .ok cids, maxFS, .ok m, stats,
        .ok thumb, .ok med, uo, ut, um, ro, ur, dc, ac, bc, fb⟩).2 = ({} : Trace) := by
  cases uo with
  | error e0 =>
    refine ⟨⟨e0, ?_, .inl rfl⟩, ?_⟩ <;>
      simp [WallpaperController.create, WallpaperController.promiseAll3, hvalid]
  | ok r0 =>
    cases ut with
    | error e1 =>
      refine ⟨⟨e1, ?_, .inr (.inl rfl)⟩, ?_⟩ <;>
        simp [WallpaperController.create, WallpaperController.promiseAll3, hvalid]
    | ok r1 =>
      cases um with
      | error e2 =>
        refine ⟨⟨e2, ?_, .inr (.inr rfl)⟩, ?_⟩ <;>
          simp [WallpaperController.create, WallpaperController.promiseAll3, hvalid]
      | ok r2 => simp [Except.isOk, Except.toBool] at hfail

/-- The healthy environment except that the thumbnail core upload rejects. -/
def coreUploadFailOracles : CreateOracles :=
  { allOkOracles with upThumb := .error "thumb upload failed" }

/-- Witness for C2: with everything healthy except the thumbnail upload, the
ingestion answers 500 with that upload error and produces no side effects. -/
theorem create_core_upload_failure_aborts_witness :
    ((ImageProcessingService.validate
        (.ok ⟨some 4000, some 3000, some "jpeg"⟩) 2000000
        (WallpaperController.uploadValidateOptions 10485760)).valid = true) ∧
    ((Except.ok (⟨"https://cdn.example/original"⟩ : UploadResult) :
        Except String UploadResult).isOk = false ∨
      (Except.error "thumb upload failed" : Except String UploadResult).isOk = false ∨
      (Except.ok (⟨"https://cdn.example/medium"⟩ : UploadResult) :
        Except String UploadResult).isOk = false) ∧
    ((∃ e, (WallpaperController.create coreUploadFailOracles).1 = .serverError e ∧
        ((Except.ok (⟨"https://cdn.example/original"⟩ : UploadResult) :
            Except String UploadResult) = .error e ∨
          (Except.error "thumb upload failed" : Except String UploadResult) = .error e ∨
          (Except.ok (⟨"https://cdn.example/medium"⟩ : UploadResult) :
            Except String UploadResult) = .error e)) ∧
      (WallpaperController.create coreUploadFailOracles).2 = ({} : Trace)) :=
  ⟨by decide, Or.inr (Or.inl rfl),
    create_core_upload_failure_aborts 2000000 10485760 [1]
      ⟨some 4000, some 3000, some "jpeg"⟩
      (.ok [(10 : ℚ), 20, 30])
      ⟨400, 300, "jpeg", 9000⟩
      ⟨800, 600, "jpeg", 30000⟩
      (.ok ⟨"https://cdn.example/original"⟩)
      (.error "thumb upload failed")
      (.ok ⟨"https://cdn.example/medium"⟩)
      (fun r => .ok ⟨r.width, r.height, "jpeg", 50000⟩)
      (fun n => .ok ⟨"https://cdn.example/res/" ++ n⟩)
      (.ok 42) (.ok ()) (.ok ()) (.ok ())
      (by decide) (Or.inr (Or.inl rfl))⟩

/-- C7: for every fully successful ingestion (every catalog entry generates
and uploads fine), the persisted variant rows — the non-original rows handed
to `bulkCreate` — are exactly one per `ResolutionSpec` in the active catalog,
the nine named specs, in catalog-declared order.  (Oracle fields in
constructor order as in C2.) -/
theorem create_success_returns_full_catalog
    (len maxFS wid : Nat) (cids : List Nat) (m : Metadata)
    (stats : Except String (List ℚ)) (thumb med : ProcessedImage)
    (r0 r1 r2 : UploadResult)
    (g : ImageProcessingService.ResolutionConfig → ProcessedImage)
    (u : String → UploadResult)
    (hvalid : (ImageProcessingService.validate (.ok m) len
      (WallpaperController.uploadValidateOptions maxFS)).valid = true) :
    ((WallpaperController.create ⟨some len, .ok cids, maxFS, .ok m, stats, .ok thumb,
        .ok med, .ok r0, .ok r1, .ok r2, fun r => .ok (g r), fun nm => .ok (u nm),
        .ok wid, .ok (), .ok (), .ok ()⟩).1 = .created) ∧
    (∃ rows, (WallpaperController.create ⟨some len, .ok cids, maxFS, .ok m, stats,
        .ok thumb, .ok med, .ok r0, .ok r1, .ok r2, fun r => .ok (g r),
        fun nm => .ok (u nm), .ok wid, .ok (), .ok (), .ok ()⟩).2.bulkRows = some rows ∧
      (rows.filter (fun r => !r.isOriginal)).map (fun r => r.name) =
        ["1080p", "1440p", "4K", "5K", "Mobile HD", "Mobile 2K", "Tablet",
          "Thumbnail", "Medium"]) := by
  simp only [WallpaperController.create, hvalid, Bool.not_true, Bool.false_eq_true,
    if_false, generateAllResolutions_collect, Except.isOk, Except.toBool, getOk,
    ite_self, sweepUploadLoop_all_ok]
  refine ⟨rfl, _, rfl, ?_⟩
  simp [ImageProcessingService.RESOLUTIONS, sweepRowOf]

/-- Witness for C7 in the fully healthy environment: the ingestion answers
201 and persists exactly the nine catalog variant rows in catalog order. -/
theorem create_success_returns_full_catalog_witness :
    ((ImageProcessingService.validate
        (.ok ⟨some 4000, some 3000, some "jpeg"⟩) 2000000
        (WallpaperController.uploadValidateOptions 10485760)).valid = true) ∧
    (((WallpaperController.create allOkOracles).1 = .created) ∧
      (∃ rows, (WallpaperController.create allOkOracles).2.bulkRows = some rows ∧
        (rows.filter (fun r => !r.isOriginal)).map (fun r => r.name) =
          ["1080p", "1440p", "4K", "5K", "Mobile HD", "Mobile 2K", "Tablet",
            "Thumbnail", "Medium"])) :=
  ⟨by decide,
    create_success_returns_full_catalog 2000000 10485760 42 [1]
      ⟨some 4000, some 3000, some "jpeg"⟩ (.ok [(10 : ℚ), 20, 30])
      ⟨400, 300, "jpeg", 9000⟩ ⟨800, 600, "jpeg", 30000⟩
      ⟨"https://cdn.example/original"⟩ ⟨"https://cdn.example/thumb"⟩
      ⟨"https://cdn.example/medium"⟩
      (fun r => ⟨r.width, r.height, "jpeg", 50000⟩)
      (fun n => ⟨"https://cdn.example/res/" ++ n⟩)
      (by decide)⟩

/-- Counterexample to C1: in a fully healthy ingestion where only the catalog
upload of the `1080p` variant rejects (a per-entry upload failure during the
catalog sweep), the ingestion does NOT complete: the per-entry error escapes
the unguarded upload loop to the outer catch, the caller gets a 500 with that
error, the sweep stops after one upload attempt, and no resolution rows are
persisted — even though the wallpaper row was already created. -/
theorem create_sweep_upload_failure_aborts_counterexample :
    WallpaperController.create sweepUploadFailOracles =
      (.serverError "network",
        { sweepResizeCalls := 9, sweepUploadCalls := 1, wallpaperCreated := true,
          bulkRows := none }) := by
  rfl

theorem filter_map_if_skip (rs : List ImageProcessingService.ResolutionConfig)
    (n msg : String) (g : ImageProcessingService.ResolutionConfig → ProcessedImage) :
    (rs.filter (fun r => (if r.name == n then (Except.error msg :
        Except String ProcessedImage) else .ok (g r)).isOk)).map
      (fun r => (r.name, getOk (if r.name == n then .error msg else .ok (g r)))) =
    (rs.filter (fun r => !(r.name == n))).map (fun r => (r.name, g r)) := by
  induction rs with
  | nil => rfl
  | cons r rest ih =>
    by_cases h : r.name = n <;>
      simp_all [List.filter_cons, Except.isOk, Except.toBool, getOk]

theorem sweepRows_filter_names (entries : List (String × ProcessedImage))
    (wid : Nat) (u : String → UploadResult) (orig : ResolutionRow)
    (hn : ∀ e ∈ entries, (e.1 == "original") = false)
    (horig : orig.isOriginal = true) :
    ((entries.map (sweepRowOf wid u) ++ [orig]).filter
        (fun row => !row.isOriginal)).map (fun row => row.name) =
      entries.map (fun e => e.1) := by
  have hA : ∀ (es : List (String × ProcessedImage)),
      (∀ e ∈ es, (e.1 == "original") = false) →
      ((es.map (sweepRowOf wid u)).filter (fun row => !row.isOriginal)).map
        (fun row => row.name) = es.map (fun e => e.1) := by
    intro es
    induction es with
    | nil => intro _; rfl
    | cons e rest ih =>
      intro hes
      have he := hes e (List.mem_cons_self e rest)
      have hrest : ∀ x ∈ rest, (x.1 == "original") = false :=
        fun x hx => hes x (List.mem_cons_of_mem e hx)
      simp [List.filter_cons, sweepRowOf, he, ih hrest]
  rw [List.filter_append, List.map_append]
  simp [horig]
  exact hA entries hn

/-- C1 (amended): during the catalog sweep, a catalog entry whose variant
GENERATION fails is logged and skipped — the ingestion still completes and
the persisted variant rows omit exactly that entry (all nine resize calls are
still attempted) — whereas a catalog entry whose UPLOAD fails propagates the
error and aborts the ingestion (see the counterexample).  This theorem proves
the generation half for an arbitrary failing catalog entry `n`. -/
theorem create_generation_failure_entry_skipped
    (len maxFS wid : Nat) (cids : List Nat) (m : Metadata)
    (stats : Except String (List ℚ)) (thumb med : ProcessedImage)
    (r0 r1 r2 : UploadResult) (n msg : String)
    (g : ImageProcessingService.ResolutionConfig → ProcessedImage)
    (u : String → UploadResult)
    (hvalid : (ImageProcessingService.validate (.ok m) len
      (WallpaperController.uploadValidateOptions maxFS)).valid = true)
    (_hmem : n ∈ ImageProcessingService.RESOLUTIONS.map (fun r => r.name)) :
    ((WallpaperController.create ⟨some len, .ok cids, maxFS, .ok m, stats, .ok thumb,
        .ok med, .ok r0, .ok r1, .ok r2,
        fun r => if r.name == n then .error msg else .ok (g r),
        fun nm => .ok (u nm), .ok wid, .ok (), .ok (), .ok ()⟩).1 = .created) ∧
    ((WallpaperController.create ⟨some len, .ok cids, maxFS, .ok m, stats, .ok thumb,
        .ok med, .ok r0, .ok r1, .ok r2,
        fun r => if r.name == n then .error msg else .ok (g r),
        fun nm => .ok (u nm), .ok wid, .ok (), .ok (), .ok ()⟩).2.sweepResizeCalls =
      ImageProcessingService.RESOLUTIONS.length) ∧
    (∃ rows, (WallpaperController.create ⟨some len, .ok cids, maxFS, .ok m, stats,
        .ok thumb, .ok med, .ok r0, .ok r1, .ok r2,
        fun r => if r.name == n then .error msg else .ok (g r),
        fun nm => .ok (u nm), .ok wid, .ok (), .ok (), .ok ()⟩).2.bulkRows = some rows ∧
      (rows.filter (fun r => !r.isOriginal)).map (fun r => r.name) =
        (ImageProcessingService.RESOLUTIONS.filter (fun r => !(r.name == n))).map
          (fun r => r.name)) := by
  have hnames : ∀ e ∈ (ImageProcessingService.RESOLUTIONS.filter
      (fun r => !(r.name == n))).map (fun r => (r.name, g r)),
      (e.1 == "original") = false := by
    intro e he
    obtain ⟨r, hr, rfl⟩ := List.mem_map.mp he
    have hr2 := List.mem_filter.mp hr
    have : ∀ r ∈ ImageProcessingService.RESOLUTIONS, (r.name == "original") = false := by
      decide
    exact this r hr2.1
  simp only [WallpaperController.create, hvalid, Bool.not_true, Bool.false_eq_true,
    if_false, generateAllResolutions_collect, ite_self, filter_map_if_skip,
    sweepUploadLoop_all_ok]
  refine ⟨rfl, rfl, _, rfl, ?_⟩
  rw [sweepRows_filter_names _ wid u _ hnames rfl, List.map_map]
  rfl

/-- Witness for C1 (amended): the healthy environment with generation of the
`4K` catalog entry failing; the ingestion completes and the persisted variant
rows are exactly the catalog minus `4K`. -/
theorem create_generation_failure_entry_skipped_witness :
    ((ImageProcessingService.validate
        (.ok ⟨some 4000, some 3000, some "jpeg"⟩) 2000000
        (WallpaperController.uploadValidateOptions 10485760)).valid = true) ∧
    (("4K" : String) ∈ ImageProcessingService.RESOLUTIONS.map (fun r => r.name)) ∧
    (((WallpaperController.create ⟨some 2000000, .ok [1], 10485760,
        .ok ⟨some 4000, some 3000, some "jpeg"⟩, .ok [(10 : ℚ), 20, 30],
        .ok ⟨400, 300, "jpeg", 9000⟩, .ok ⟨800, 600, "jpeg", 30000⟩,
        .ok ⟨"https://cdn.example/original"⟩, .ok ⟨"https://cdn.example/thumb"⟩,
        .ok ⟨"https://cdn.example/medium"⟩,
        fun r => if r.name == "4K" then .error "oom"
          else .ok ⟨r.width, r.height, "jpeg", 50000⟩,
        fun nm => .ok ⟨"https://cdn.example/res/" ++ nm⟩,
        .ok 42, .ok (), .ok (), .ok ()⟩).1 = .created) ∧
      ((WallpaperController.create ⟨some 2000000, .ok [1], 10485760,
        .ok ⟨some 4000, some 3000, some "jpeg"⟩, .ok [(10 : ℚ), 20, 30],
        .ok ⟨400, 300, "jpeg", 9000⟩, .ok ⟨800, 600, "jpeg", 30000⟩,
        .ok ⟨"https://cdn.example/original"⟩, .ok ⟨"https://cdn.example/thumb"⟩,
        .ok ⟨"https://cdn.example/medium"⟩,
        fun r => if r.name == "4K" then .error "oom"
          else .ok ⟨r.width, r.height, "jpeg", 50000⟩,
        fun nm => .ok ⟨"https://cdn.example/res/" ++ nm⟩,
        .ok 42, .ok (), .ok (), .ok ()⟩).2.sweepResizeCalls =
        ImageProcessingService.RESOLUTIONS.length) ∧
      (∃ rows, (WallpaperController.create ⟨some 2000000, .ok [1], 10485760,
        .ok ⟨some 4000, some 3000, some "jpeg"⟩, .ok [(10 : ℚ), 20, 30],
        .ok ⟨400, 300, "jpeg", 9000⟩, .ok ⟨800, 600, "jpeg", 30000⟩,
        .ok ⟨"https://cdn.example/original"⟩, .ok ⟨"https://cdn.example/thumb"⟩,
        .ok ⟨"https://cdn.example/medium"⟩,
        fun r => if r.name == "4K" then .error "oom"
          else .ok ⟨r.width, r.height, "jpeg", 50000⟩,
        fun nm => .ok ⟨"https://cdn.example/res/" ++ nm⟩,
        .ok 42, .ok (), .ok (), .ok ()⟩).2.bulkRows = some rows ∧
        (rows.filter (fun r => !r.isOriginal)).map (fun r => r.name) =
          (ImageProcessingService.RESOLUTIONS.filter
            (fun r => !(r.name == "4K"))).map (fun r => r.name))) :=
  ⟨by decide, by decide,
    create_generation_failure_entry_skipped 2000000 10485760 42 [1]
      ⟨some 4000, some 3000, some "jpeg"⟩ (.ok [(10 : ℚ), 20, 30])
      ⟨400, 300, "jpeg", 9000⟩ ⟨800, 600, "jpeg", 30000⟩
      ⟨"https://cdn.example/original"⟩ ⟨"https://cdn.example/thumb"⟩
      ⟨"https://cdn.example/medium"⟩ "4K" "oom"
      (fun r => ⟨r.width, r.height, "jpeg", 50000⟩)
      (fun nm => ⟨"https://cdn.example/res/" ++ nm⟩)
      (by decide) (by decide)⟩

end Wallspie
